import Mathlib

/-!
Finit: boot sequence of `main` (finit.c) and string utilities (util.c).

A shallow embedding of

* `main` of `finit.c`: the straight-line PID-1 boot sequence, modelled as a
  program in a trace-recording state monad.  Every function `main` calls is
  external to `finit.c`; a call is recorded in the trace in program order and
  its result, where `main` reads one, is supplied by the environment `Env`.
* `strtobytes`, `isallowed` and `sanitize` of `util.c`, over byte buffers.
-/

namespace Finit

/-! ## finit.c -/

/-- Hook points passed to `plugin_run_hooks` by `main`. -/
inductive Hook where
  | HOOK_ROOTFS_UP
  | HOOK_BASEFS_UP
  | HOOK_NETWORK_UP
  | HOOK_SVC_UP
  | HOOK_SYSTEM_UP
  deriving DecidableEq, Repr

/-- One call made by `main` (or by `banner`) to a function outside `finit.c`,
with the arguments that `main` passes. -/
inductive Call where
  | getpid
  | client
  | sig_init
  | uev_init
  | chdir (path : String)
  | umask (mask : Nat)
  | mount (source target : String) (fstype : Option String) (flags : Nat) (data : Option String)
  | makedir (path : String) (mode : Nat)
  | parse_kernel_cmdline
  | fprintf_stderr (heading : String)
  | run_interactive (cmd : String) (msg : String)
  | plugin_load_all (path : String)
  | parse_finit_conf (file : String)
  | set_hostname
  | run (cmd : String)
  | d_log (msg : String)
  | plugin_run_hooks (no : Hook)
  | sig_setup
  | service_bootstrap
  | ifconfig (ifname addr mask : String) (up : Nat)
  | parse_finit_d (dir : String)
  | service_runlevel (level : Int)
  | fisdir (path : String)
  | run_parts (dir : String)
  | tty_runlevel (level : Int)
  | api_init
  | uev_run
  deriving DecidableEq, Repr

/-- Everything `main` reads that `finit.c` does not define: the build-time
macros, the results of the external calls whose value `main` could consume, and
the values the globals hold when `main` reads them (they are written by the
external parsers and by `service_runlevel`). -/
structure Env where
  /-- result of `getpid()` -/
  pid : Nat
  /-- result of `client(argc, argv)` -/
  clientRet : Int
  /-- result of `uev_run(&loop, 0)` -/
  uevRet : Int
  /-- whether the callbacks run by `plugin_run_hooks(no)` report failure -/
  hookFails : Hook → Bool
  /-- result of `fisdir(path)` -/
  fisdirRet : String → Bool
  /-- macro `REMOUNT_ROOTFS` is defined -/
  REMOUNT_ROOTFS : Bool
  /-- macro `SYSROOT`, when defined -/
  SYSROOT : Option String
  /-- macro `SETUP_DEVFS` -/
  SETUP_DEVFS : String
  /-- macro `PLUGIN_PATH` -/
  PLUGIN_PATH : String
  /-- macro `FINIT_CONF` -/
  FINIT_CONF : String
  /-- macro `INIT_HEADING` -/
  INIT_HEADING : String
  /-- global `verbose` when `banner` reads it -/
  verbose : Int
  /-- global `network` when `main` reads it (`none` is `NULL`) -/
  network : Option String
  /-- global `rcsd` when `main` reads it -/
  rcsd : String
  /-- global `cfglevel` when `main` reads it -/
  cfglevel : Int
  /-- global `runparts` when `main` reads it (`none` is `NULL`) -/
  runparts : Option String
  /-- global `runlevel` when `main` reads it -/
  runlevel : Int

/-- `MS_MOVE` of `<sys/mount.h>`. -/
def MS_MOVE : Nat := 8192

/-- The boot monad: a computation takes the sequence of external calls made so
far and gives its result together with the extended sequence. -/
def Boot (α : Type) : Type := List Call → α × List Call

instance : Monad Boot where
  pure a := fun t => (a, t)
  bind x f := fun t => f (x t).1 (x t).2

/-- Run a computation from a given call sequence. -/
def Boot.run {α : Type} (x : Boot α) (t : List Call) : α × List Call := x t

/-- Record one external call. -/
def call (c : Call) : Boot Unit :=
  fun t => ((), t ++ [c])

/-- External `plugin_run_hooks(no)`: the call is recorded, the outcome of the
callbacks is what the environment says. -/
def plugin_run_hooks (env : Env) (no : Hook) : Boot Bool := do
  call (.plugin_run_hooks no)
  pure (env.hookFails no)

/-- External `fisdir(path)`. -/
def fisdir (env : Env) (path : String) : Boot Bool := do
  call (.fisdir path)
  pure (env.fisdirRet path)

/-- Function `banner` of `finit.c`: prints the heading unless `verbose` is 0. -/
def banner (env : Env) : Boot Int := do
  if env.verbose = 0 then
    return 0
  call (.fprintf_stderr env.INIT_HEADING)
  return 0

/-- The PID-1 part of `main` (finit.c lines 81-216). -/
def mainInit (env : Env) : Boot Int := do
  -- Initial setup of signals, ignore all until we're up.
  call .sig_init
  -- Initalize event context.
  call .uev_init
  -- Mount base file system
  call (.chdir "/")
  call (.umask 0)
  call (.mount "none" "/proc" (some "proc") 0 none)
  call (.mount "none" "/proc/bus/usb" (some "usbfs") 0 none)
  call (.mount "none" "/sys" (some "sysfs") 0 none)
  call (.makedir "/dev/pts" 0o755)
  call (.makedir "/dev/shm" 0o755)
  call (.mount "none" "/dev/pts" (some "devpts") 0 (some "gid=5,mode=620"))
  call (.mount "none" "/dev/shm" (some "tmpfs") 0 none)
  call (.umask 0o22)
  -- Parse kernel parameters
  call .parse_kernel_cmdline
  -- Hello world.
  let _ ← banner env
  -- Populate /dev and prepare for runtime events from kernel.
  call (.run_interactive env.SETUP_DEVFS "Populating device tree")
  -- Load plugins first
  call (.plugin_load_all env.PLUGIN_PATH)
  -- Parse configuration file
  call (.parse_finit_conf env.FINIT_CONF)
  -- Set hostname as soon as possible
  call .set_hostname
  -- Mount filesystems
  (if env.REMOUNT_ROOTFS then
    call (.run "/bin/mount -n -o remount,rw /")
  else pure ())
  (match env.SYSROOT with
  | some sysroot => call (.mount sysroot "/" none MS_MOVE none)
  | none => pure ())
  call (.d_log "Root FS up, calling hooks ...")
  let _ ← plugin_run_hooks env .HOOK_ROOTFS_UP
  call (.umask 0)
  call (.run "/bin/mount -na")
  call (.run "/sbin/swapon -ea")
  call (.umask 0o22)
  -- Cleanup stale files, if any still linger on.
  call (.run_interactive "rm -rf /tmp/* /var/run/* /var/lock/*" "Cleanup temporary directories")
  -- Base FS up, enable standard SysV init signals
  call .sig_setup
  call (.d_log "Base FS up, calling hooks ...")
  let _ ← plugin_run_hooks env .HOOK_BASEFS_UP
  -- Start all bootstrap tasks, no network available!
  call .service_bootstrap
  -- Network stuff
  call (.run "/sbin/sysctl -e -p /etc/sysctl.conf >/dev/null")
  call (.ifconfig "lo" "127.0.0.1" "255.0.0.0" 1)
  (match env.network with
  | some network => call (.run_interactive network "Starting networking: %s")
  | none => pure ())
  call (.umask 0o22)
  -- Hooks that rely on loopback, or basic networking being up.
  let _ ← plugin_run_hooks env .HOOK_NETWORK_UP
  -- Load .conf files from /etc/finit.d and start all tasks/services in the
  -- configured runlevel
  call (.parse_finit_d env.rcsd)
  call (.service_runlevel env.cfglevel)
  call (.d_log "Running svc up hooks ...")
  let _ ← plugin_run_hooks env .HOOK_SVC_UP
  -- Run startup scripts in the runparts directory, if any.
  (match env.runparts with
  | some runparts => do
    if (← fisdir env runparts) then
      call (.d_log "Running startup scripts in %s ...")
      call (.run_parts runparts)
  | none => pure ())
  -- Hooks that should run at the very end
  let _ ← plugin_run_hooks env .HOOK_SYSTEM_UP
  -- Start TTYs
  call (.tty_runlevel env.runlevel)
  -- Disable verbose mode, if selected: `if (quiet) verbose = 0;` writes a
  -- global and makes no call
  -- Start new initctl API responder
  call .api_init
  -- Enter main loop to monior /dev/initctl and services
  call .uev_run
  return env.uevRet

/-- Function `main` of `finit.c`. -/
def main (env : Env) : Boot Int := do
  call .getpid
  if env.pid ≠ 1 then
    call .client
    return env.clientRet
  else
    mainInit env

/-- The sequence of external calls of a run of `main` in which every call
returns. -/
def trace (env : Env) : List Call :=
  ((main env).run []).2

/-- The calls of a run of `main` that ends after `n` calls have been entered:
a run that is cut short because a call does not return (a callback that exits,
a command that blocks, a reset) is a prefix of the full call sequence. -/
def observed (env : Env) (n : Nat) : List Call :=
  (trace env).take n

/-- The hook point of a call, when it is a `plugin_run_hooks` call. -/
def hookOf : Call → Option Hook
  | .plugin_run_hooks no => some no
  | _ => none

/-- A sample environment in which every hook reports failure. -/
def sampleEnv : Env where
  pid := 1
  clientRet := 0
  uevRet := 0
  hookFails := fun _ => true
  fisdirRet := fun _ => true
  REMOUNT_ROOTFS := true
  SYSROOT := none
  SETUP_DEVFS := "/sbin/mdev -s"
  PLUGIN_PATH := "/lib/finit/plugins"
  FINIT_CONF := "/etc/finit.conf"
  INIT_HEADING := "Finit"
  verbose := 1
  network := some "/sbin/ifup -a"
  rcsd := "/etc/finit.d"
  cfglevel := 2
  runparts := some "/etc/start.d"
  runlevel := 2


/-- Whether a call is a `service_runlevel` call. -/
def isServiceRunlevel : Call → Bool
  | .service_runlevel _ => true
  | _ => false

/-- Whether a call is `service_bootstrap`. -/
def isServiceBootstrap : Call → Bool
  | .service_bootstrap => true
  | _ => false

/-- Whether a call starts services: `service_bootstrap` or `service_runlevel`. -/
def startsServices (c : Call) : Bool :=
  isServiceBootstrap c || isServiceRunlevel c

/-- Whether a call loads configuration: `parse_finit_conf` or `parse_finit_d`. -/
def loadsConfig : Call → Bool
  | .parse_finit_conf _ => true
  | .parse_finit_d _ => true
  | _ => false

/-- Whether a call is `plugin_load_all`. -/
def isPluginLoadAll : Call → Bool
  | .plugin_load_all _ => true
  | _ => false

/-- Whether a call is `parse_finit_conf`. -/
def isParseFinitConf : Call → Bool
  | .parse_finit_conf _ => true
  | _ => false

/-- Whether a call is `plugin_run_hooks`, for any hook point. -/
def isRunHooks (c : Call) : Bool :=
  (hookOf c).isSome

/-- Whether a call is `plugin_run_hooks(HOOK_ROOTFS_UP)`. -/
def isRootfsUp : Call → Bool
  | .plugin_run_hooks .HOOK_ROOTFS_UP => true
  | _ => false

/-- Whether a call is `plugin_run_hooks(HOOK_SVC_UP)`. -/
def isSvcUp : Call → Bool
  | .plugin_run_hooks .HOOK_SVC_UP => true
  | _ => false

/-- Whether a call is `plugin_run_hooks(HOOK_SYSTEM_UP)`. -/
def isSystemUp : Call → Bool
  | .plugin_run_hooks .HOOK_SYSTEM_UP => true
  | _ => false

/-- Whether a call is `uev_run`, the entry into the event loop. -/
def isUevRun : Call → Bool
  | .uev_run => true
  | _ => false

/-- The boot steps that follow the root-filesystem hooks in `main`:
`run("/bin/mount -na")`, `sig_setup`, the base-filesystem hooks,
`service_bootstrap`, `service_runlevel` and `uev_run`. -/
def isLaterBootStep : Call → Bool
  | .run cmd => cmd == "/bin/mount -na"
  | .sig_setup => true
  | .plugin_run_hooks .HOOK_BASEFS_UP => true
  | .service_bootstrap => true
  | .service_runlevel _ => true
  | .uev_run => true
  | _ => false

/-- Calls of `banner`. -/
def bannerCalls (env : Env) : List Call :=
  if env.verbose = 0 then [] else [.fprintf_stderr env.INIT_HEADING]


/-! ## util.c -/

/-- Conversion of a mathematical integer to a 32-bit `int`: the value modulo
2^32, in the range from -2^31 to 2^31 - 1. -/
def toInt32 (x : Int) : Int :=
  (x + 2147483648) % 4294967296 - 2147483648

/-- `isdigit` of `<ctype.h>`. -/
def isdigit (ch : Nat) : Bool :=
  decide (0x30 ≤ ch) && decide (ch ≤ 0x39)

/-- `isspace` of `<ctype.h>` in the "C" locale. -/
def isspace (ch : Nat) : Bool :=
  decide (ch = 0x20) || (decide (0x09 ≤ ch) && decide (ch ≤ 0x0d))

/-- `isprint` of `<ctype.h>` in the "C" locale. -/
def isprint (ch : Nat) : Bool :=
  decide (0x20 ≤ ch) && decide (ch ≤ 0x7e)

/-- Value of a run of decimal digit characters, most significant first. -/
def decimal (ds : List Nat) : Int :=
  ds.foldl (fun acc d => acc * 10 + ((d : Int) - 0x30)) 0

/-- `LONG_MAX` of `<limits.h>`, `long` having 64 bits. -/
def LONG_MAX : Int := 9223372036854775807

/-- `LONG_MIN` of `<limits.h>`, `long` having 64 bits. -/
def LONG_MIN : Int := -9223372036854775808

/-- The value `strtol` returns for a converted value: the value itself when it
is in the range of `long`, otherwise `LONG_MAX` or `LONG_MIN`. -/
def clampLong (v : Int) : Int :=
  if LONG_MAX < v then LONG_MAX else if v < LONG_MIN then LONG_MIN else v

/-- `strtol(s, NULL, 10)` of `<stdlib.h>` on the string held in `s` (the
conversion ends at the first non-digit after the optional sign, so at the
latest at the terminating NUL or the end of the list): white space is skipped,
an optional sign is taken, and the decimal digits that follow are converted; a
value outside the range of `long` gives `LONG_MAX` or `LONG_MIN`. -/
def strtol (s : List Nat) : Int :=
  match s.dropWhile isspace with
  | [] => 0
  | ch :: rest =>
    if ch = 0x2d then clampLong (- decimal (rest.takeWhile isdigit))
    else if ch = 0x2b then clampLong (decimal (rest.takeWhile isdigit))
    else clampLong (decimal ((ch :: rest).takeWhile isdigit))

/-- `atoi` of `<stdlib.h>`, as the C library implements it:
`(int) strtol(s, NULL, 10)`. The `long` result of `strtol`, saturated at
`LONG_MAX` and `LONG_MIN`, is converted to `int` (modulo 2^32). -/
def atoi (s : List Nat) : Int :=
  toInt32 (strtol s)

/-- `strspn(arg, "0123456789")`: the length of the leading run of digits. -/
def strspnDigits (arg : List Nat) : Nat :=
  (arg.takeWhile isdigit).length

/-- The loop `while (mod--) bytes *= 1000;` of `strtobytes`, in `int`
arithmetic. -/
def scale : Nat → Int → Int
  | 0, bytes => bytes
  | mod + 1, bytes => scale mod (toInt32 (bytes * 1000))

/-- Function `strtobytes` of `util.c`. The argument is `none` for `NULL`,
otherwise the bytes of the string; the byte read at the end of the list is the
terminating NUL. The result is the returned `int`; the write `arg[pos] = 0`
is visible in the buffer handed to `atoi`. -/
def strtobytes (arg : Option (List Nat)) : Int :=
  match arg with
  | none => -1
  | some arg =>
    let pos := strspnDigits arg
    if arg.getD pos 0 ≠ 0 then
      if arg.getD pos 0 = 0x47 then        -- 'G'
        scale 3 (atoi (arg.set pos 0))
      else if arg.getD pos 0 = 0x4d then   -- 'M'
        scale 2 (atoi (arg.set pos 0))
      else if arg.getD pos 0 = 0x6b then   -- 'k'
        scale 1 (atoi (arg.set pos 0))
      else
        -1
    else
      scale 0 (atoi arg)

/-- Function `isallowed` of `util.c`. -/
def isallowed (ch : Nat) : Bool :=
  isprint ch

/-- The loop `while (isallowed(arg[i]) && i < len) i++;` of `sanitize`, at
index `i`, the first argument being the part of the object from index `i` on:
the index at which the loop stops, or `none` when `arg[i]` is read outside the
object (undefined behaviour). -/
def sanitize.scan (len : Nat) : List Nat → Nat → Option Nat
  | [], _ => none
  | ch :: rest, i =>
    if isallowed ch && decide (i < len) then
      sanitize.scan len rest (i + 1)
    else
      some i

/-- Function `sanitize` of `util.c`. `arg` is the object the pointer points
into, from the pointer on. The result is `none` for undefined behaviour (an
access outside the object), `some none` for `NULL`, and `some (some buf)` when
`arg` is returned, `buf` being the contents of the object on return. -/
def sanitize (arg : List Nat) (len : Nat) : Option (Option (List Nat)) :=
  match sanitize.scan len arg 0 with
  | none => none
  | some i =>
    if i + 1 < len then
      if i + 1 < arg.length then some (some (arg.set (i + 1) 0)) else none
    else if 0 < i then
      match arg[i]? with
      | none => none
      | some ch => if ch = 0 then some (some arg) else some none
    else
      some none

/-- The string held in a buffer: the bytes before the first NUL. -/
def cstr (buf : List Nat) : List Nat :=
  buf.takeWhile (fun ch => decide (ch ≠ 0))

/-! ## Properties -/

theorem Boot.run_pure {α : Type} (a : α) (t : List Call) :
    (pure a : Boot α).run t = (a, t) := rfl

theorem Boot.run_bind {α β : Type} (x : Boot α) (f : α → Boot β) (t : List Call) :
    (x >>= f).run t = (f (x.run t).1).run (x.run t).2 := rfl

theorem Boot.run_call (c : Call) (t : List Call) : (call c).run t = ((), t ++ [c]) := rfl

set_option maxHeartbeats 4000000 in
theorem trace_eq (env : Env) (h : env.pid = 1) :
    trace env =
      [.getpid, .sig_init, .uev_init, .chdir "/", .umask 0,
        .mount "none" "/proc" (some "proc") 0 none,
        .mount "none" "/proc/bus/usb" (some "usbfs") 0 none,
        .mount "none" "/sys" (some "sysfs") 0 none,
        .makedir "/dev/pts" 0o755, .makedir "/dev/shm" 0o755,
        .mount "none" "/dev/pts" (some "devpts") 0 (some "gid=5,mode=620"),
        .mount "none" "/dev/shm" (some "tmpfs") 0 none,
        .umask 0o22, .parse_kernel_cmdline]
      ++ bannerCalls env
      ++ [.run_interactive env.SETUP_DEVFS "Populating device tree",
        .plugin_load_all env.PLUGIN_PATH, .parse_finit_conf env.FINIT_CONF, .set_hostname]
      ++ (if env.REMOUNT_ROOTFS then [.run "/bin/mount -n -o remount,rw /"] else [])
      ++ (match env.SYSROOT with
          | some sysroot => [.mount sysroot "/" none MS_MOVE none]
          | none => [])
      ++ [.d_log "Root FS up, calling hooks ...", .plugin_run_hooks .HOOK_ROOTFS_UP,
        .umask 0, .run "/bin/mount -na", .run "/sbin/swapon -ea", .umask 0o22,
        .run_interactive "rm -rf /tmp/* /var/run/* /var/lock/*" "Cleanup temporary directories",
        .sig_setup, .d_log "Base FS up, calling hooks ...", .plugin_run_hooks .HOOK_BASEFS_UP,
        .service_bootstrap, .run "/sbin/sysctl -e -p /etc/sysctl.conf >/dev/null",
        .ifconfig "lo" "127.0.0.1" "255.0.0.0" 1]
      ++ (match env.network with
          | some network => [.run_interactive network "Starting networking: %s"]
          | none => [])
      ++ [.umask 0o22, .plugin_run_hooks .HOOK_NETWORK_UP, .parse_finit_d env.rcsd,
        .service_runlevel env.cfglevel, .d_log "Running svc up hooks ...",
        .plugin_run_hooks .HOOK_SVC_UP]
      ++ (match env.runparts with
          | some runparts =>
            .fisdir runparts ::
              (if env.fisdirRet runparts then
                [.d_log "Running startup scripts in %s ...", .run_parts runparts]
              else [])
          | none => [])
      ++ [.plugin_run_hooks .HOOK_SYSTEM_UP, .tty_runlevel env.runlevel, .api_init, .uev_run] := by
  obtain ⟨pid, cr, ur, hf, fd, rr, sr, sd, pp, fc, ih, vb, nw, rc, cl, rp, rl⟩ := env
  simp only at h
  subst h
  unfold trace main mainInit banner plugin_run_hooks fisdir bannerCalls
  rcases rp with _ | rp
  · by_cases hv : vb = 0 <;> cases rr <;> cases sr <;> cases nw <;>
      simp only [Boot.run_bind, Boot.run_pure, Boot.run_call, hv, if_true, if_false, ne_eq,
        not_true_eq_false, Bool.false_eq_true, List.append_assoc, List.cons_append,
        List.nil_append, List.append_nil]
  · by_cases hv : vb = 0 <;> cases rr <;> cases sr <;> cases nw <;> cases hfd : fd rp <;>
      simp only [Boot.run_bind, Boot.run_pure, Boot.run_call, hv, hfd, if_true, if_false, ne_eq,
        not_true_eq_false, Bool.false_eq_true, List.append_assoc, List.cons_append,
        List.nil_append, List.append_nil]


/-! ### General facts on call sequences -/

theorem filter_take_initial (p : Call → Bool) (l : List Call) (n : Nat) :
    (l.take n).filter p <+: l.filter p :=
  List.IsPrefix.filter p ( List.take_prefix n l)

theorem take_eq_self_of_last_mem (p : Call → Bool) (l : List Call) (a : Call) (n : Nat)
    (hlast : l.getLast? = some a) (hp : p a = true) (hcount : l.countP p = 1)
    (hmem : ∃ c ∈ l.take n, p c = true) : l.take n = l := by
  by_contra hne
  have hn : n < l.length := by
    by_contra hge
    exact hne (List.take_of_length_le (Nat.le_of_not_lt hge))
  have hsplit : l.take n ++ l.drop n = l := List.take_append_drop n l
  have hdrop : l.drop n ≠ [] := by
    intro hnil
    have := congrArg List.length hnil
    simp at this
    omega
  have hlast2 : (l.drop n).getLast? = some a := by
    rw [← hsplit, List.getLast?_append_of_ne_nil _ hdrop] at hlast
    exact hlast
  have h1 : 0 < (l.take n).countP p := by
    obtain ⟨c, hc, hpc⟩ := hmem
    exact List.countP_pos_iff.mpr ⟨c, hc, hpc⟩
  have h2 : 0 < (l.drop n).countP p :=
    List.countP_pos_iff.mpr ⟨a, List.mem_of_getLast?_eq_some hlast2, hp⟩
  have h3 : l.countP p = (l.take n).countP p + (l.drop n).countP p := by
    conv_lhs => rw [← hsplit]
    exact List.countP_append _ _ _
  omega

/-! ### The boot sequence -/

theorem trace_filterMap_hookOf (env : Env) (h : env.pid = 1) :
    (trace env).filterMap hookOf =
      [.HOOK_ROOTFS_UP, .HOOK_BASEFS_UP, .HOOK_NETWORK_UP, .HOOK_SVC_UP, .HOOK_SYSTEM_UP] := by
  rw [trace_eq env h]
  simp only [List.filterMap_append, bannerCalls]
  split_ifs <;> split <;> split <;> split <;> (try split_ifs) <;> rfl

theorem trace_getLast (env : Env) (h : env.pid = 1) :
    (trace env).getLast? = some .uev_run := by
  rw [trace_eq env h, List.getLast?_append_of_ne_nil _ (by simp)]
  rfl

theorem trace_countP_uev_run (env : Env) (h : env.pid = 1) :
    (trace env).countP isUevRun = 1 := by
  rw [trace_eq env h]
  simp only [List.countP_append, bannerCalls]
  split_ifs <;> split <;> split <;> split <;> (try split_ifs) <;> rfl

/-- C1, as stated, fails: in `sampleEnv` the root-filesystem hooks report
failure, yet the run of `main` performs every later boot step (mount -na,
sig_setup, the base-filesystem hooks, service_bootstrap, service_runlevel and
the event loop), in that order after the hook call. -/
theorem rootfs_hook_failure_does_not_abort :
    sampleEnv.pid = 1 ∧ sampleEnv.hookFails .HOOK_ROOTFS_UP = true ∧
    ¬ (∀ c ∈ trace sampleEnv, isLaterBootStep c = false) ∧
    (trace sampleEnv).filter (fun c => isRootfsUp c || isLaterBootStep c) =
      [.plugin_run_hooks .HOOK_ROOTFS_UP, .run "/bin/mount -na", .sig_setup,
        .plugin_run_hooks .HOOK_BASEFS_UP, .service_bootstrap, .service_runlevel 2,
        .uev_run] := by
  decide

/-- C1, amended: `main` does not consult the outcome of
`plugin_run_hooks(HOOK_ROOTFS_UP)`. The call sequence of a PID-1 boot is the same
whatever the hooks report, and in it the root-filesystem hook call is followed,
in this order, by mount -na, sig_setup, the base-filesystem hooks,
service_bootstrap, service_runlevel(cfglevel) and uev_run, each exactly once. -/
theorem rootfs_hook_result_ignored (env : Env) (h : env.pid = 1) :
    (∀ f : Hook → Bool, trace { env with hookFails := f } = trace env) ∧
    (trace env).filter (fun c => isRootfsUp c || isLaterBootStep c) =
      [.plugin_run_hooks .HOOK_ROOTFS_UP, .run "/bin/mount -na", .sig_setup,
        .plugin_run_hooks .HOOK_BASEFS_UP, .service_bootstrap,
        .service_runlevel env.cfglevel, .uev_run] := by
  refine ⟨fun f => ?_, ?_⟩
  · rw [trace_eq env h, trace_eq { env with hookFails := f } h]
    rfl
  · rw [trace_eq env h]
    simp only [List.filter_append, bannerCalls]
    split_ifs <;> split <;> split <;> split <;> (try split_ifs) <;> rfl

theorem rootfs_hook_result_ignored_witness :
    sampleEnv.pid = 1 ∧
    (trace sampleEnv).filter (fun c => isRootfsUp c || isLaterBootStep c) =
      [.plugin_run_hooks .HOOK_ROOTFS_UP, .run "/bin/mount -na", .sig_setup,
        .plugin_run_hooks .HOOK_BASEFS_UP, .service_bootstrap,
        .service_runlevel sampleEnv.cfglevel, .uev_run] :=
  ⟨rfl, (rootfs_hook_result_ignored sampleEnv rfl).2⟩

/-- C2: in every run of `main` as PID 1 that reaches the event loop (the run,
possibly cut short, contains the `uev_run` call), `uev_run` is the last call,
it is entered once, and the `plugin_run_hooks` calls before it are exactly
HOOK_ROOTFS_UP, HOOK_BASEFS_UP, HOOK_NETWORK_UP, HOOK_SVC_UP, HOOK_SYSTEM_UP,
in that order. -/
theorem hook_milestone_order (env : Env) (n : Nat) (h : env.pid = 1)
    (hrun : Call.uev_run ∈ observed env n) :
    ∃ pre, observed env n = pre ++ [Call.uev_run] ∧ Call.uev_run ∉ pre ∧
      pre.filterMap hookOf =
        [.HOOK_ROOTFS_UP, .HOOK_BASEFS_UP, .HOOK_NETWORK_UP, .HOOK_SVC_UP, .HOOK_SYSTEM_UP] := by
  have hfull : observed env n = trace env :=
    take_eq_self_of_last_mem isUevRun (trace env) .uev_run n (trace_getLast env h) rfl
      (trace_countP_uev_run env h) ⟨.uev_run, hrun, rfl⟩
  have hsplit : (trace env).dropLast ++ [Call.uev_run] = trace env :=
    List.dropLast_append_getLast? _ (trace_getLast env h)
  refine ⟨(trace env).dropLast, by rw [hfull, hsplit], ?_, ?_⟩
  · intro hmem
    have hc := trace_countP_uev_run env h
    rw [← hsplit, List.countP_append] at hc
    have hpos : 0 < (trace env).dropLast.countP isUevRun :=
      List.countP_pos_iff.mpr ⟨.uev_run, hmem, rfl⟩
    have hone : List.countP isUevRun [Call.uev_run] = 1 := rfl
    omega
  · have hf := trace_filterMap_hookOf env h
    rw [← hsplit, List.filterMap_append] at hf
    have hnil : List.filterMap hookOf [Call.uev_run] = [] := rfl
    rw [hnil, List.append_nil] at hf
    exact hf

theorem hook_milestone_order_witness :
    sampleEnv.pid = 1 ∧ Call.uev_run ∈ observed sampleEnv 47 ∧
    ∃ pre, observed sampleEnv 47 = pre ++ [Call.uev_run] ∧ Call.uev_run ∉ pre ∧
      pre.filterMap hookOf =
        [.HOOK_ROOTFS_UP, .HOOK_BASEFS_UP, .HOOK_NETWORK_UP, .HOOK_SVC_UP, .HOOK_SYSTEM_UP] :=
  ⟨rfl, by decide, hook_milestone_order sampleEnv 47 rfl (by decide)⟩

/-- C3: in the PID-1 boot sequence the calls that start services and the
services-up and system-up hook calls are exactly service_bootstrap,
service_runlevel(cfglevel), plugin_run_hooks(HOOK_SVC_UP),
plugin_run_hooks(HOOK_SYSTEM_UP), in that order: the services-up milestone is
fired exactly once, after the runlevel switch and not between
service_bootstrap and service_runlevel, and before the system-up hooks. In
every run, also one cut short, these calls form a prefix of that sequence. -/
theorem svc_up_once_after_runlevel (env : Env) (h : env.pid = 1) :
    (trace env).filter (fun c => startsServices c || isSvcUp c || isSystemUp c) =
      [.service_bootstrap, .service_runlevel env.cfglevel,
        .plugin_run_hooks .HOOK_SVC_UP, .plugin_run_hooks .HOOK_SYSTEM_UP] ∧
    ∀ n, (observed env n).filter (fun c => startsServices c || isSvcUp c || isSystemUp c) <+:
      [.service_bootstrap, .service_runlevel env.cfglevel,
        .plugin_run_hooks .HOOK_SVC_UP, .plugin_run_hooks .HOOK_SYSTEM_UP] := by
  have hfull : (trace env).filter (fun c => startsServices c || isSvcUp c || isSystemUp c) =
      [.service_bootstrap, .service_runlevel env.cfglevel,
        .plugin_run_hooks .HOOK_SVC_UP, .plugin_run_hooks .HOOK_SYSTEM_UP] := by
    rw [trace_eq env h]
    simp only [List.filter_append, bannerCalls]
    split_ifs <;> split <;> split <;> split <;> (try split_ifs) <;> rfl
  refine ⟨hfull, fun n => ?_⟩
  rw [← hfull]
  exact filter_take_initial _ _ n

theorem svc_up_once_after_runlevel_witness :
    sampleEnv.pid = 1 ∧
    (trace sampleEnv).filter (fun c => startsServices c || isSvcUp c || isSystemUp c) =
      [.service_bootstrap, .service_runlevel 2,
        .plugin_run_hooks .HOOK_SVC_UP, .plugin_run_hooks .HOOK_SYSTEM_UP] :=
  ⟨rfl, (svc_up_once_after_runlevel sampleEnv rfl).1⟩

/-- C4, as stated, fails: in the run of `main` in `sampleEnv` a
configuration-loading call, parse_finit_d(rcsd), is made after the first call
that starts services, service_bootstrap. -/
theorem finit_d_loaded_after_bootstrap :
    sampleEnv.pid = 1 ∧
    ¬ (∀ c ∈ (trace sampleEnv).dropWhile (fun c => !startsServices c), loadsConfig c = false) ∧
    (trace sampleEnv).filter (fun c => loadsConfig c || startsServices c) =
      [.parse_finit_conf "/etc/finit.conf", .service_bootstrap,
        .parse_finit_d "/etc/finit.d", .service_runlevel 2] := by
  decide

/-- C4, amended: in the PID-1 boot sequence the configuration-loading and
service-starting calls are exactly parse_finit_conf(FINIT_CONF),
service_bootstrap, parse_finit_d(rcsd), service_runlevel(cfglevel), in that
order: parse_finit_conf is completed before the first call that starts
services, and parse_finit_d is made after service_bootstrap and completed
before service_runlevel. -/
theorem config_loaded_before_runlevel (env : Env) (h : env.pid = 1) :
    (trace env).filter (fun c => loadsConfig c || startsServices c) =
      [.parse_finit_conf env.FINIT_CONF, .service_bootstrap,
        .parse_finit_d env.rcsd, .service_runlevel env.cfglevel] := by
  rw [trace_eq env h]
  simp only [List.filter_append, bannerCalls]
  split_ifs <;> split <;> split <;> split <;> (try split_ifs) <;> rfl

theorem config_loaded_before_runlevel_witness :
    sampleEnv.pid = 1 ∧
    (trace sampleEnv).filter (fun c => loadsConfig c || startsServices c) =
      [.parse_finit_conf sampleEnv.FINIT_CONF, .service_bootstrap,
        .parse_finit_d sampleEnv.rcsd, .service_runlevel sampleEnv.cfglevel] :=
  ⟨rfl, config_loaded_before_runlevel sampleEnv rfl⟩

/-- C5: in the PID-1 boot sequence the plugin-loading, parse_finit_conf and
plugin_run_hooks calls are exactly plugin_load_all(PLUGIN_PATH),
parse_finit_conf(FINIT_CONF) and the five hook calls, in that order, so
plugin_load_all comes before parse_finit_conf and before every
plugin_run_hooks call. In every run, also one cut short, these calls form a
prefix of that sequence: no milestone fires before plugin_load_all. -/
theorem plugins_loaded_first (env : Env) (h : env.pid = 1) :
    (trace env).filter (fun c => isPluginLoadAll c || isParseFinitConf c || isRunHooks c) =
      [.plugin_load_all env.PLUGIN_PATH, .parse_finit_conf env.FINIT_CONF,
        .plugin_run_hooks .HOOK_ROOTFS_UP, .plugin_run_hooks .HOOK_BASEFS_UP,
        .plugin_run_hooks .HOOK_NETWORK_UP, .plugin_run_hooks .HOOK_SVC_UP,
        .plugin_run_hooks .HOOK_SYSTEM_UP] ∧
    ∀ n, (observed env n).filter
        (fun c => isPluginLoadAll c || isParseFinitConf c || isRunHooks c) <+:
      [.plugin_load_all env.PLUGIN_PATH, .parse_finit_conf env.FINIT_CONF,
        .plugin_run_hooks .HOOK_ROOTFS_UP, .plugin_run_hooks .HOOK_BASEFS_UP,
        .plugin_run_hooks .HOOK_NETWORK_UP, .plugin_run_hooks .HOOK_SVC_UP,
        .plugin_run_hooks .HOOK_SYSTEM_UP] := by
  have hfull : (trace env).filter
      (fun c => isPluginLoadAll c || isParseFinitConf c || isRunHooks c) =
      [.plugin_load_all env.PLUGIN_PATH, .parse_finit_conf env.FINIT_CONF,
        .plugin_run_hooks .HOOK_ROOTFS_UP, .plugin_run_hooks .HOOK_BASEFS_UP,
        .plugin_run_hooks .HOOK_NETWORK_UP, .plugin_run_hooks .HOOK_SVC_UP,
        .plugin_run_hooks .HOOK_SYSTEM_UP] := by
    rw [trace_eq env h]
    simp only [List.filter_append, bannerCalls]
    split_ifs <;> split <;> split <;> split <;> (try split_ifs) <;> rfl
  refine ⟨hfull, fun n => ?_⟩
  rw [← hfull]
  exact filter_take_initial _ _ n

theorem plugins_loaded_first_witness :
    sampleEnv.pid = 1 ∧
    (trace sampleEnv).filter (fun c => isPluginLoadAll c || isParseFinitConf c || isRunHooks c) =
      [.plugin_load_all "/lib/finit/plugins", .parse_finit_conf "/etc/finit.conf",
        .plugin_run_hooks .HOOK_ROOTFS_UP, .plugin_run_hooks .HOOK_BASEFS_UP,
        .plugin_run_hooks .HOOK_NETWORK_UP, .plugin_run_hooks .HOOK_SVC_UP,
        .plugin_run_hooks .HOOK_SYSTEM_UP] :=
  ⟨rfl, (plugins_loaded_first sampleEnv rfl).1⟩

/-! ### strtobytes -/

/-- Sample values of `strtobytes`: "12kB" gives 12000, "-5" and `NULL` give -1,
"k" gives 0, and "3G" wraps to 3000000000 - 2^32. -/
theorem strtobytes_samples :
    strtobytes (some [0x31, 0x32, 0x6b, 0x42]) = 12000 ∧
    strtobytes (some [0x2d, 0x35]) = -1 ∧
    strtobytes none = -1 ∧
    strtobytes (some [0x6b]) = 0 ∧
    strtobytes (some [0x33, 0x47]) = -1294967296 := by
  decide

/-! ### sanitize -/

/-- C6 fails on the code: for the 4-byte object "abc\0" and `len = 3`,
`sanitize` returns the pointer (not `NULL`), the buffer unchanged, and none of
the 3 bytes below index `len` is NUL. -/
theorem sanitize_returns_unterminated :
    sanitize [0x61, 0x62, 0x63, 0] 3 = some (some [0x61, 0x62, 0x63, 0]) ∧
    ¬ ∃ j, j < 3 ∧ [0x61, 0x62, 0x63, (0 : Nat)][j]? = some 0 := by
  decide

/-- C7 fails on the code: for the object "a\tb\0" and `len = 4`, `sanitize`
returns the pointer with the buffer holding "a\t": the tab, which is not an
allowed character, is part of the returned string. -/
theorem sanitize_keeps_disallowed_char :
    sanitize [0x61, 0x09, 0x62, 0] 4 = some (some [0x61, 0x09, 0, 0]) ∧
    cstr [0x61, 0x09, 0, 0] = [0x61, 0x09] ∧ isallowed 0x09 = false := by
  decide

theorem scan_bounds (len : Nat) (l : List Nat) (i k : Nat)
    (h : sanitize.scan len l i = some k) : i ≤ k ∧ (k ≤ len ∨ k = i) := by
  induction l generalizing i with
  | nil => simp [sanitize.scan] at h
  | cons ch rest ih =>
    rw [sanitize.scan] at h
    split_ifs at h with hc
    · have := ih (i + 1) h
      simp only [Bool.and_eq_true, decide_eq_true_eq] at hc
      omega
    · simp only [Option.some.injEq] at h
      omega

/-- What `sanitize` does ensure: when it returns the pointer, the buffer holds a
NUL byte at some index not above `len` (index `len` itself is possible). -/
theorem sanitize_nul_upto_len (arg : List Nat) (len : Nat) (buf : List Nat)
    (h : sanitize arg len = some (some buf)) : ∃ j, j ≤ len ∧ buf[j]? = some 0 := by
  unfold sanitize at h
  split at h
  · exact absurd h (by simp)
  · rename_i i hscan
    have hb := scan_bounds len arg 0 i hscan
    split_ifs at h with h1 h2 h3
    · simp only [Option.some.injEq] at h
      subst h
      exact ⟨i + 1, by omega, by simp [List.getElem?_set, h2]⟩
    · split at h
      · exact absurd h (by simp)
      · rename_i ch hch
        split_ifs at h with h0
        · simp only [Option.some.injEq] at h
          subst h
          subst h0
          exact ⟨i, by omega, hch⟩
        · exact absurd h (by simp)
    · exact absurd h (by simp)

theorem sanitize_nul_upto_len_witness :
    sanitize [0x61, 0x62, 0x63, 0] 3 = some (some [0x61, 0x62, 0x63, 0]) ∧
    ∃ j, j ≤ 3 ∧ [0x61, 0x62, 0x63, (0 : Nat)][j]? = some 0 :=
  ⟨by decide, sanitize_nul_upto_len [0x61, 0x62, 0x63, 0] 3 [0x61, 0x62, 0x63, 0] (by decide)⟩

end Finit
